import Mathlib

/-!
Verification of the Amtrak price monitor (amtrak_monitor_selenium.py).

The Python program scrapes train fares, persists observed prices in two
append-only SQLite tables (price_history, notifications), and sends an SMS
alert when a fare drops below a threshold, deduplicating alerts per
(travel_date, route_type, train_number) within a 24 hour window.

This file gives a shallow embedding of the decision pipeline:
  - parse_time           (lines 278-290) including the exact strptime format
    list ["%H:%M", "%I:%M %p", "%I:%M%p", "%H:%M:%S"] with the regex
    alternatives CPython strptime uses for each directive;
  - filter_by_time_window (lines 259-276);
  - get_working_days      (lines 126-136);
  - check_if_notified     (lines 313-322);
  - send_sms_alert        (lines 324-360);
  - save_price_data       (lines 292-311);
  - search_trains / extract_train_data (lines 138-257), with the browser
    session as an opaque fare-source oracle;
  - check_route           (lines 362-381);
  - run_monitoring_cycle  (lines 383-426);
  - run_continuously      (lines 428-452).

External collaborators (the Selenium session, the Twilio transport, the
SQLite engine) are modelled as oracles inside RunEnv: each is a pure
function deciding whether the corresponding call succeeds.  Clock times
are seconds since midnight (Nat); wall-clock timestamps are seconds (Int);
prices are rationals.
-/

/-! ## Configuration constants (lines 26-46 of the source) -/

/-- PRICE_THRESHOLD = 20.00 in the source; the literal denotes the
rational number twenty. -/
def PRICE_THRESHOLD : ℚ := 20

def CHECK_INTERVAL_MINUTES : Nat := 120

def MORNING_START : String := "08:00"

def MORNING_END : String := "08:30"

def AFTERNOON_START : String := "14:00"

def AFTERNOON_END : String := "17:00"

/-- Pacing delay between consecutive route checks inside one cycle:
time.sleep(3) at lines 402 and 412. -/
def PACING_DELAY_SECONDS : Nat := 3

/-- Backoff after a failed cycle: time.sleep(300) at line 452. -/
def BACKOFF_SECONDS : Nat := 300

/-- STATIONS lookup (lines 30-34), display name of a station code. -/
def stationName (code : String) : String :=
  if code = "PJC" then "Princeton Junction"
  else if code = "PHL" then "Philadelphia, PA - 30th Street Station"
  else if code = "TRE" then "Trenton"
  else ""

/-! ## parse_time (lines 278-290)

Python: time_str.strip().upper(), then try
["%H:%M", "%I:%M %p", "%I:%M%p", "%H:%M:%S"] in order with
datetime.strptime, returning the first success; raise ValueError if none
match.  CPython strptime compiles each directive to a regex and requires
the whole string to be consumed:
  %H -> 2[0-3]|[0-1]\d|\d      %I -> 1[0-2]|0[1-9]|[1-9]
  %M -> [0-5]\d|\d             %S -> 6[0-1]|[0-5]\d|\d
  %p -> AM|PM                  literal whitespace -> \s+
The token matchers below return every way the directive can consume a
prefix, in the same priority order as the regex alternatives; a format
succeeds iff some combination consumes the entire string (this is exactly
anchored regex matching with backtracking).  The parsed value is seconds
since midnight; strptime only fills hour/minute/second here, and
comparison of the resulting datetime objects (all on 1900-01-01) is
comparison of these values. -/

/-- Python str.strip removes these whitespace characters. -/
def isPySpace (c : Char) : Bool :=
  c == ' ' || c == '\t' || c == '\n' || c == '\r' || c == '\x0b' || c == '\x0c'

def pyStrip (cs : List Char) : List Char :=
  ((cs.dropWhile isPySpace).reverse.dropWhile isPySpace).reverse

def pyUpper (cs : List Char) : List Char :=
  cs.map Char.toUpper

def digitVal (c : Char) : Nat := c.toNat - 48

/-- Directive %H: regex 2[0-3]|[0-1]\d|\d, alternatives in order. -/
def matchH : List Char → List (Nat × List Char)
  | [] => []
  | [c] => if c.isDigit then [(digitVal c, [])] else []
  | c1 :: c2 :: rest =>
      (if c1 = '2' ∧ '0' ≤ c2 ∧ c2 ≤ '3' then [(20 + digitVal c2, rest)] else [])
      ++ (if ('0' ≤ c1 ∧ c1 ≤ '1') ∧ c2.isDigit then
            [(10 * digitVal c1 + digitVal c2, rest)] else [])
      ++ (if c1.isDigit then [(digitVal c1, c2 :: rest)] else [])

/-- Directive %I: regex 1[0-2]|0[1-9]|[1-9], alternatives in order. -/
def matchI : List Char → List (Nat × List Char)
  | [] => []
  | [c] => if '1' ≤ c ∧ c ≤ '9' then [(digitVal c, [])] else []
  | c1 :: c2 :: rest =>
      (if c1 = '1' ∧ '0' ≤ c2 ∧ c2 ≤ '2' then [(10 + digitVal c2, rest)] else [])
      ++ (if c1 = '0' ∧ '1' ≤ c2 ∧ c2 ≤ '9' then [(digitVal c2, rest)] else [])
      ++ (if '1' ≤ c1 ∧ c1 ≤ '9' then [(digitVal c1, c2 :: rest)] else [])

/-- Directive %M: regex [0-5]\d|\d, alternatives in order. -/
def matchM : List Char → List (Nat × List Char)
  | [] => []
  | [c] => if c.isDigit then [(digitVal c, [])] else []
  | c1 :: c2 :: rest =>
      (if ('0' ≤ c1 ∧ c1 ≤ '5') ∧ c2.isDigit then
        [(10 * digitVal c1 + digitVal c2, rest)] else [])
      ++ (if c1.isDigit then [(digitVal c1, c2 :: rest)] else [])

/-- Directive %S: regex 6[0-1]|[0-5]\d|\d, alternatives in order. -/
def matchS : List Char → List (Nat × List Char)
  | [] => []
  | [c] => if c.isDigit then [(digitVal c, [])] else []
  | c1 :: c2 :: rest =>
      (if c1 = '6' ∧ '0' ≤ c2 ∧ c2 ≤ '1' then [(60 + digitVal c2, rest)] else [])
      ++ (if ('0' ≤ c1 ∧ c1 ≤ '5') ∧ c2.isDigit then
            [(10 * digitVal c1 + digitVal c2, rest)] else [])
      ++ (if c1.isDigit then [(digitVal c1, c2 :: rest)] else [])

/-- Literal colon in the format string. -/
def matchColon : List Char → List (List Char)
  | ':' :: rest => [rest]
  | _ => []

/-- Literal whitespace in the format string becomes the regex \s+.  The
next directive in the formats used here is %p, which never begins with a
whitespace character, so consuming the maximal run is equivalent to the
backtracking regex. -/
def matchWS : List Char → List (List Char)
  | [] => []
  | c :: rest => if isPySpace c then [rest.dropWhile isPySpace] else []

/-- Directive %p: AM yields 0, PM yields 1 (input is already uppercased). -/
def matchP : List Char → List (Nat × List Char)
  | 'A' :: 'M' :: rest => [(0, rest)]
  | 'P' :: 'M' :: rest => [(1, rest)]
  | _ => []

/-- CPython strptime 12-hour conversion: PM adds 12 except for 12 PM;
12 AM becomes hour 0. -/
def hour12 (h p : Nat) : Nat :=
  if p = 1 then (if h = 12 then 12 else h + 12)
  else (if h = 12 then 0 else h)

/-- Format "%H:%M". -/
def strptime_HM (cs : List Char) : Option Nat :=
  ((matchH cs).flatMap fun hv =>
    (matchColon hv.2).flatMap fun r2 =>
      (matchM r2).flatMap fun mv =>
        if mv.2 = [] then [hv.1 * 3600 + mv.1 * 60] else []).head?

/-- Format "%I:%M %p". -/
def strptime_IM_sp_p (cs : List Char) : Option Nat :=
  ((matchI cs).flatMap fun hv =>
    (matchColon hv.2).flatMap fun r2 =>
      (matchM r2).flatMap fun mv =>
        (matchWS mv.2).flatMap fun r4 =>
          (matchP r4).flatMap fun pv =>
            if pv.2 = [] then [hour12 hv.1 pv.1 * 3600 + mv.1 * 60] else []).head?

/-- Format "%I:%M%p". -/
def strptime_IMp (cs : List Char) : Option Nat :=
  ((matchI cs).flatMap fun hv =>
    (matchColon hv.2).flatMap fun r2 =>
      (matchM r2).flatMap fun mv =>
        (matchP mv.2).flatMap fun pv =>
          if pv.2 = [] then [hour12 hv.1 pv.1 * 3600 + mv.1 * 60] else []).head?

/-- Format "%H:%M:%S". -/
def strptime_HMS (cs : List Char) : Option Nat :=
  ((matchH cs).flatMap fun hv =>
    (matchColon hv.2).flatMap fun r2 =>
      (matchM r2).flatMap fun mv =>
        (matchColon mv.2).flatMap fun r4 =>
          (matchS r4).flatMap fun sv =>
            if sv.2 = [] then [hv.1 * 3600 + mv.1 * 60 + sv.1] else []).head?

/-- First successful parse in the list, mirroring the for-loop over the
format list at lines 284-288. -/
def firstSome : List (Option Nat) → Option Nat
  | [] => none
  | some v :: _ => some v
  | none :: rest => firstSome rest

/-- time_str.strip().upper() at line 280. -/
def normInput (s : String) : List Char :=
  pyUpper (pyStrip s.data)

/-- parse_time (lines 278-290): strip and uppercase, then try the four
formats in their fixed order; none results in the ValueError at line 290,
modelled as Option.none.  The result is seconds since midnight. -/
def parse_time (time_str : String) : Option Nat :=
  firstSome [strptime_HM (normInput time_str),
             strptime_IM_sp_p (normInput time_str),
             strptime_IMp (normInput time_str),
             strptime_HMS (normInput time_str)]

/-! ## Data model

A Train is the dict built in extract_train_data (lines 239-246).  A raw
candidate either normalizes to such a dict or raises
NoSuchElementException/ValueError while its fields are read (caught per
element at lines 248-250), modelled as Except Unit Train. -/

structure Train where
  train_number : String
  departure_time : String
  arrival_time : String
  duration : String
  price : ℚ
  travel_date : String
deriving DecidableEq, Repr

/-- One raw fare candidate from the results page: Except.ok when every
required field is present and parseable, Except.error for the
record-local parse failure. -/
def RawCandidate : Type := Except Unit Train

/-- Row of the price_history table (lines 76-90); the autoincrement id and
the insertion timestamp play no role in any decision and are omitted. -/
structure PriceHistoryEntry where
  travel_date : String
  origin : String
  destination : String
  departure_time : String
  arrival_time : String
  train_number : String
  duration : String
  price : ℚ
  route_type : String
deriving DecidableEq, Repr

/-- Row of the notifications table (lines 91-101).  sent_timestamp is the
insertion time in seconds; the message text is not read anywhere. -/
structure NotificationEntry where
  sent_timestamp : Int
  travel_date : String
  route_type : String
  train_number : String
  price : ℚ
deriving DecidableEq, Repr

/-- The two append-only SQLite tables. -/
structure DB where
  price_history : List PriceHistoryEntry
  notifications : List NotificationEntry
deriving DecidableEq, Repr

/-- State threaded through a run: the database plus the log of
"ALERT: Train fare" lines emitted at line 373 (train_number, price). -/
structure CheckState where
  db : DB
  alerts : List (String × ℚ)
deriving DecidableEq, Repr

/-- Outcome of one fare-source query: a navigation/timeout failure caught
in search_trains (lines 205-210), a results page with no train elements
(TimeoutException caught at lines 252-253), or a list of raw candidates. -/
inductive SourceOutcome
  | fail
  | noResults
  | raw (cands : List RawCandidate)

/-- Environment of oracles for the external collaborators: the Twilio
configuration flag, the current wall-clock time in seconds, the fare
source, whether an INSERT into price_history succeeds, and whether the
Twilio transport delivers a given message. -/
structure RunEnv where
  twilioConfigured : Bool
  now : Int
  source : String → String → Nat → SourceOutcome
  storageOk : PriceHistoryEntry → Bool
  delivered : NotificationEntry → Bool

/-! ## get_working_days (lines 126-136)

Calendar dates are day numbers; weekday() of day d is d % 7 with Monday
equal to 0, matching Python where weekday advances by one per day.  The
source loop: while fewer than num_days collected, advance one day and
keep it when weekday() < 5. -/

def get_working_days_go (cur k : Nat) : List Nat :=
  if k = 0 then []
  else if (cur + 1) % 7 < 5 then (cur + 1) :: get_working_days_go (cur + 1) (k - 1)
  else get_working_days_go (cur + 1) k
termination_by 3 * k + (if 5 ≤ (cur + 1) % 7 then 7 - (cur + 1) % 7 else 0)
decreasing_by
  all_goals (split_ifs <;> omega)

/-- get_working_days: the next num_days dates after today whose weekday
is Monday through Friday. -/
def get_working_days (today : Nat) (num_days : Nat) : List Nat :=
  get_working_days_go today num_days

/-! ## The per-record pipeline -/

/-- extract_train_data (lines 212-257): the per-element loop appends the
normalized dict and skips elements whose fields are missing or whose
price text does not parse (lines 248-250).  NOTE: the source function
also contains the debug line 223, print with an empty f-string
replacement field, which is a Python SyntaxError; the model captures the
evident intent of the loop, which the rest of the function implements. -/
def extract_train_data (cands : List RawCandidate) : List Train :=
  cands.filterMap fun c =>
    match c with
    | Except.ok t => some t
    | Except.error _ => none

/-- search_trains (lines 138-210): on success, the extracted trains; on
timeout or any navigation error, log and return the empty list (lines
205-210); a results page without train elements also yields []. -/
def search_trains (env : RunEnv) (origin destination : String) (travel_date : Nat) :
    List Train :=
  match env.source origin destination travel_date with
  | SourceOutcome.fail => []
  | SourceOutcome.noResults => []
  | SourceOutcome.raw cands => extract_train_data cands

/-- filter_by_time_window (lines 259-276): keep a train iff its departure
time and both window bounds parse and start <= departure <= end; a parse
failure of any of the three skips the train (lines 272-274). -/
def filter_by_time_window (trains : List Train) (start_time end_time : String) :
    List Train :=
  trains.filter fun train =>
    match parse_time train.departure_time, parse_time start_time, parse_time end_time with
    | some dep, some s, some e => decide (s ≤ dep ∧ dep ≤ e)
    | _, _, _ => false

/-- Row inserted by save_price_data (lines 295-310). -/
def mkHistoryEntry (train : Train) (origin destination route_type : String) :
    PriceHistoryEntry :=
  { travel_date := train.travel_date
    origin := origin
    destination := destination
    departure_time := train.departure_time
    arrival_time := train.arrival_time
    train_number := train.train_number
    duration := train.duration
    price := train.price
    route_type := route_type }

/-- save_price_data (lines 292-311): INSERT INTO price_history and
commit.  A persistence failure raises out of the function, leaving the
table unchanged; the Bool is false exactly when the call raised. -/
def save_price_data (env : RunEnv) (db : DB) (train : Train)
    (origin destination route_type : String) : DB × Bool :=
  let entry := mkHistoryEntry train origin destination route_type
  if env.storageOk entry then
    ({ db with price_history := db.price_history ++ [entry] }, true)
  else
    (db, false)

/-- check_if_notified (lines 313-322): SELECT from notifications WHERE
the (travel_date, route_type, train_number) triple matches exactly AND
sent_timestamp > now minus 24 hours. -/
def check_if_notified (now : Int) (db : DB) (train : Train) (route_type : String) :
    Bool :=
  db.notifications.any fun e =>
    e.travel_date == train.travel_date && e.route_type == route_type
      && e.train_number == train.train_number && decide (now - 86400 < e.sent_timestamp)

/-- Row inserted by send_sms_alert on successful delivery (lines 348-354). -/
def mkNotificationEntry (now : Int) (train : Train) (route_type : String) :
    NotificationEntry :=
  { sent_timestamp := now
    travel_date := train.travel_date
    route_type := route_type
    train_number := train.train_number
    price := train.price }

/-- send_sms_alert (lines 324-360): with no Twilio client, log a warning
and return False (lines 326-328); otherwise attempt delivery, and only
when the transport call succeeds INSERT the notification row and return
True; when delivery raises, log and return False with no row written
(lines 358-360).  The origin and destination display names only feed the
message text. -/
def send_sms_alert (env : RunEnv) (train : Train)
    (origin destination route_type : String) (db : DB) : Bool × DB :=
  if env.twilioConfigured = false then
    (false, db)
  else
    let entry := mkNotificationEntry env.now train route_type
    if env.delivered entry then
      (true, { db with notifications := db.notifications ++ [entry] })
    else
      (false, db)

/-- Body of the for-loop of check_route (lines 368-379) for one filtered
train: save the observation; when that raises, propagate (Bool false).
Otherwise alert when price < PRICE_THRESHOLD and not already notified:
log the ALERT line and call send_sms_alert. -/
def processTrain (env : RunEnv) (origin destination route_type : String)
    (st : CheckState) (train : Train) : CheckState × Bool :=
  let saved := save_price_data env st.db train origin destination route_type
  if saved.2 then
    if train.price < PRICE_THRESHOLD then
      if check_if_notified env.now saved.1 train route_type then
        ({ st with db := saved.1 }, true)
      else
        let sent := send_sms_alert env train (stationName origin)
          (stationName destination) route_type saved.1
        ({ db := sent.2
           alerts := st.alerts ++ [(train.train_number, train.price)] }, true)
    else
      ({ st with db := saved.1 }, true)
  else
    ({ st with db := saved.1 }, false)

/-- The for-loop of check_route over the filtered trains; an exception
from a loop iteration aborts the remaining iterations. -/
def runTrains (env : RunEnv) (origin destination route_type : String) :
    CheckState → List Train → CheckState × Bool
  | st, [] => (st, true)
  | st, t :: ts =>
      let r := processTrain env origin destination route_type st t
      if r.2 then runTrains env origin destination route_type r.1 ts
      else (r.1, false)

/-- check_route (lines 362-381): search, filter by the time window,
process each surviving train, return the filtered list.  The Bool is
false when a storage exception escaped the loop (check_route itself has
no handler, so the exception also escapes check_route). -/
def check_route (env : RunEnv) (origin destination : String) (travel_date : Nat)
    (time_start time_end route_type : String) (st : CheckState) :
    List Train × CheckState × Bool :=
  let trains := search_trains env origin destination travel_date
  let filtered := filter_by_time_window trains time_start time_end
  let r := runTrains env origin destination route_type st filtered
  (filtered, r.1, r.2)

/-- The per-date body of run_monitoring_cycle (lines 390-423): morning
PJC to PHL, afternoon PHL to PJC, afternoon PHL to TRE, in order.
run_monitoring_cycle has no exception handler, so a check that raises
aborts the remaining checks of the date list. -/
def runDays (env : RunEnv) : List Nat → CheckState → CheckState × Bool
  | [], st => (st, true)
  | day :: rest, st =>
      let r1 := check_route env "PJC" "PHL" day MORNING_START MORNING_END
        "MORNING_OUTBOUND" st
      if r1.2.2 then
        let r2 := check_route env "PHL" "PJC" day AFTERNOON_START AFTERNOON_END
          "AFTERNOON_RETURN_PJC" r1.2.1
        if r2.2.2 then
          let r3 := check_route env "PHL" "TRE" day AFTERNOON_START AFTERNOON_END
            "AFTERNOON_RETURN_TRE" r2.2.1
          if r3.2.2 then runDays env rest r3.2.1
          else (r3.2.1, false)
        else (r2.2.1, false)
      else (r1.2.1, false)

/-- run_monitoring_cycle (lines 383-426): the next five working days,
three route checks per day. -/
def run_monitoring_cycle (env : RunEnv) (today : Nat) (st : CheckState) :
    CheckState × Bool :=
  runDays env (get_working_days today 5) st

/-! ## run_continuously (lines 428-452)

One loop iteration either runs a cycle (whose external behaviour is
described by a RunEnv and a date) or is cut short by KeyboardInterrupt.
The trace records, per iteration: the cycle attempt, the error log line
449, the close_driver calls (lines 442 and 451), the sleeps, and the
line 447 "Stopped by user" log. -/

inductive CycleStep
  | run (env : RunEnv) (today : Nat)
  | interrupt

inductive Event
  | cycle
  | errorLogged
  | closeDriver
  | sleep (seconds : Nat)
  | stopped
deriving DecidableEq, Repr

/-- run_continuously: on a normal cycle, close the driver and sleep the
check interval; on an uncaught cycle error, log it, close the driver,
sleep the 300 second backoff and continue; on KeyboardInterrupt, log
"Stopped by user" and break. -/
def run_continuously : List CycleStep → CheckState → List Event × CheckState
  | [], st => ([], st)
  | CycleStep.interrupt :: _, st => ([Event.stopped], st)
  | CycleStep.run env today :: rest, st =>
      let r := run_monitoring_cycle env today st
      if r.2 then
        let c := run_continuously rest r.1
        (Event.cycle :: Event.closeDriver ::
          Event.sleep (CHECK_INTERVAL_MINUTES * 60) :: c.1, c.2)
      else
        let c := run_continuously rest r.1
        (Event.cycle :: Event.errorLogged :: Event.closeDriver ::
          Event.sleep BACKOFF_SECONDS :: c.1, c.2)

/-- Number of cycle attempts in a trace. -/
def countCycles : List Event → Nat
  | [] => 0
  | Event.cycle :: rest => countCycles rest + 1
  | _ :: rest => countCycles rest

/-- Whether the loop broke out via KeyboardInterrupt. -/
def stoppedIn : List Event → Bool
  | [] => false
  | Event.stopped :: _ => true
  | _ :: rest => stoppedIn rest

/-- Whether a step list contains an operator interruption. -/
def hasInterrupt : List CycleStep → Bool
  | [] => false
  | CycleStep.interrupt :: _ => true
  | _ :: rest => hasInterrupt rest

/-! ## Repeated observation of one train

Models the same fare being observed by the alert logic in successive
monitoring cycles: each observation runs the loop body of check_route
(lines 368-379) on the same train. -/

def observeRepeatedly (env : RunEnv) (origin destination route_type : String)
    (train : Train) : Nat → CheckState → CheckState
  | 0, st => st
  | n + 1, st =>
      observeRepeatedly env origin destination route_type train n
        (processTrain env origin destination route_type st train).1

/-- Canonical two-digit 24-hour clock string "HH:MM". -/
def canonHM (h m : Nat) : String :=
  String.mk [Char.ofNat (48 + h / 10), Char.ofNat (48 + h % 10), ':',
             Char.ofNat (48 + m / 10), Char.ofNat (48 + m % 10)]

/-! ## Concrete fixtures used by witnesses and counterexamples -/

def st0 : CheckState := { db := { price_history := [], notifications := [] }, alerts := [] }

def trainW : Train :=
  { train_number := "123", departure_time := "08:15", arrival_time := "09:05"
    duration := "50m", price := 19, travel_date := "2024-06-10" }

def trainEq : Train := { trainW with price := 20 }

def trainW18 : Train := { trainW with price := 18 }

def trainA : Train :=
  { train_number := "A", departure_time := "08:15", arrival_time := "09:05"
    duration := "50m", price := 100, travel_date := "2024-06-11" }

def trainB : Train :=
  { train_number := "B", departure_time := "15:00", arrival_time := "16:00"
    duration := "60m", price := 100, travel_date := "2024-06-11" }

/-- Fully working environment: Twilio configured, storage and delivery
always succeed, fare source always empty. -/
def envAllOk : RunEnv :=
  { twilioConfigured := true
    now := 1000000
    source := fun _ _ _ => SourceOutcome.raw []
    storageOk := fun _ => true
    delivered := fun _ => true }

def envW : RunEnv :=
  { envAllOk with
    source := fun o _ day =>
      if o == "PJC" && day == 1 then SourceOutcome.raw [Except.ok trainW]
      else SourceOutcome.raw [] }

/-- Same world as envW one hour later. -/
def envW2 : RunEnv := { envW with now := envW.now + 3600 }

/-- Twilio credentials absent (lines 43-46 unset, so line 68 never builds
the client). -/
def envNoTwilio : RunEnv := { envAllOk with twilioConfigured := false }

/-- Delivery transport raises on every send. -/
def envDelFail : RunEnv := { envAllOk with delivered := fun _ => false }

/-- Fare source fails every query. -/
def envFail : RunEnv := { envAllOk with source := fun _ _ _ => SourceOutcome.fail }

/-- Environment for the storage-failure scenario: day 1 morning check
finds trainA whose INSERT fails, day 1 afternoon check finds trainB whose
INSERT succeeds. -/
def envC4 : RunEnv :=
  { twilioConfigured := false
    now := 1000000
    source := fun o d day =>
      if o == "PJC" && day == 1 then SourceOutcome.raw [Except.ok trainA]
      else if o == "PHL" && d == "PJC" && day == 1 then SourceOutcome.raw [Except.ok trainB]
      else SourceOutcome.raw []
    storageOk := fun e => !(e.train_number == "A")
    delivered := fun _ => true }

def t1 : Train :=
  { train_number := "T1", departure_time := "08:00", arrival_time := "08:50"
    duration := "50m", price := 100, travel_date := "2024-06-11" }

def t2 : Train := { t1 with train_number := "T2", departure_time := "08:10" }

def t3 : Train := { t1 with train_number := "T3", departure_time := "08:20" }

def t4 : Train := { t1 with train_number := "T4", departure_time := "08:30" }

/-- Batch of five raw candidates of which exactly one fails
normalization. -/
def c5Batch : List RawCandidate :=
  [Except.ok t1, Except.ok t2, Except.error (), Except.ok t3, Except.ok t4]

def envC5 : RunEnv :=
  { twilioConfigured := false
    now := 1000000
    source := fun o _ day =>
      if o == "PJC" && day == 1 then SourceOutcome.raw c5Batch
      else SourceOutcome.raw []
    storageOk := fun _ => true
    delivered := fun _ => true }

def tW : Train :=
  { train_number := "77", departure_time := "08:15", arrival_time := "09:00"
    duration := "45m", price := 30, travel_date := "2024-06-12" }

theorem gwd_go_zero (cur : Nat) : get_working_days_go cur 0 = [] := by
  rw [get_working_days_go.eq_def]
  simp

theorem gwd_go_weekday (cur j : Nat) (h : (cur + 1) % 7 < 5) :
    get_working_days_go cur (j + 1) = (cur + 1) :: get_working_days_go (cur + 1) j := by
  rw [get_working_days_go.eq_def]
  simp [h]

theorem gwd_go_weekend (cur j : Nat) (h : ¬ (cur + 1) % 7 < 5) :
    get_working_days_go cur (j + 1) = get_working_days_go (cur + 1) (j + 1) := by
  rw [get_working_days_go.eq_def]
  simp [h]

theorem gwd_go_length (cur k : Nat) : (get_working_days_go cur k).length = k := by
  by_cases hk : k = 0
  · subst hk
    simp [gwd_go_zero]
  · obtain ⟨j, rfl⟩ : ∃ j, k = j + 1 := ⟨k - 1, by omega⟩
    by_cases hw : (cur + 1) % 7 < 5
    · rw [gwd_go_weekday cur j hw]
      have ih := gwd_go_length (cur + 1) j
      simp [ih]
    · rw [gwd_go_weekend cur j hw]
      exact gwd_go_length (cur + 1) (j + 1)
termination_by 3 * k + (if 5 ≤ (cur + 1) % 7 then 7 - (cur + 1) % 7 else 0)
decreasing_by
  all_goals (split_ifs <;> omega)

theorem gwd_go_mem (cur k : Nat) :
    ∀ d ∈ get_working_days_go cur k, cur < d ∧ d % 7 < 5 := by
  by_cases hk : k = 0
  · subst hk
    simp [gwd_go_zero]
  · obtain ⟨j, rfl⟩ : ∃ j, k = j + 1 := ⟨k - 1, by omega⟩
    by_cases hw : (cur + 1) % 7 < 5
    · rw [gwd_go_weekday cur j hw]
      intro d hd
      rcases List.mem_cons.mp hd with h | h
      · subst h
        exact ⟨by omega, hw⟩
      · have ih := gwd_go_mem (cur + 1) j d h
        exact ⟨by omega, ih.2⟩
    · rw [gwd_go_weekend cur j hw]
      intro d hd
      have ih := gwd_go_mem (cur + 1) (j + 1) d hd
      exact ⟨by omega, ih.2⟩
termination_by 3 * k + (if 5 ≤ (cur + 1) % 7 then 7 - (cur + 1) % 7 else 0)
decreasing_by
  all_goals (split_ifs <;> omega)

theorem gwd_go_chain (cur k : Nat) :
    List.Chain' (· < ·) (get_working_days_go cur k) := by
  by_cases hk : k = 0
  · subst hk
    simp [gwd_go_zero]
  · obtain ⟨j, rfl⟩ : ∃ j, k = j + 1 := ⟨k - 1, by omega⟩
    by_cases hw : (cur + 1) % 7 < 5
    · rw [gwd_go_weekday cur j hw]
      rw [List.chain'_cons']
      refine ⟨?_, gwd_go_chain (cur + 1) j⟩
      intro b hb
      exact (gwd_go_mem (cur + 1) j b (List.mem_of_mem_head? hb)).1
    · rw [gwd_go_weekend cur j hw]
      exact gwd_go_chain (cur + 1) (j + 1)
termination_by 3 * k + (if 5 ≤ (cur + 1) % 7 then 7 - (cur + 1) % 7 else 0)
decreasing_by
  all_goals (split_ifs <;> omega)

theorem gwd_0_5 : get_working_days 0 5 = [1, 2, 3, 4, 7] := by
  rw [get_working_days, gwd_go_weekday 0 4 (by norm_num),
      gwd_go_weekday 1 3 (by norm_num), gwd_go_weekday 2 2 (by norm_num),
      gwd_go_weekday 3 1 (by norm_num), gwd_go_weekend 4 0 (by norm_num),
      gwd_go_weekend 5 0 (by norm_num), gwd_go_weekday 6 0 (by norm_num),
      gwd_go_zero]

/-- Claim C6. -/
theorem working_days_spec (today : Nat) :
    (∀ n, (get_working_days today n).length = n)
  ∧ (∀ n d, d ∈ get_working_days today n → today < d ∧ d % 7 < 5)
  ∧ (∀ n, List.Chain' (· < ·) (get_working_days today n))
  ∧ (∀ n, (today + 1) % 7 < 5 →
      (get_working_days today (n + 1)).head? = some (today + 1))
  ∧ (today % 7 = 4 →
      get_working_days today 5 = [today + 3, today + 4, today + 5, today + 6, today + 7]) := by
  refine ⟨fun n => gwd_go_length today n, fun n => gwd_go_mem today n,
          fun n => gwd_go_chain today n, ?_, ?_⟩
  · intro n hw
    rw [get_working_days, gwd_go_weekday today n hw]
    rfl
  · intro h4
    rw [get_working_days,
        gwd_go_weekend today 4 (by omega),
        gwd_go_weekend (today + 1) 4 (by omega),
        gwd_go_weekday (today + 1 + 1) 4 (by omega),
        gwd_go_weekday (today + 1 + 1 + 1) 3 (by omega),
        gwd_go_weekday (today + 1 + 1 + 1 + 1) 2 (by omega),
        gwd_go_weekday (today + 1 + 1 + 1 + 1 + 1) 1 (by omega),
        gwd_go_weekday (today + 1 + 1 + 1 + 1 + 1 + 1) 0 (by omega),
        gwd_go_zero]

/-- Witness for working_days_spec: starting on a Friday (day 4 has
weekday 4) the five dates are the following Monday through Friday. -/
theorem working_days_witness :
    get_working_days 4 5 = [7, 8, 9, 10, 11]
  ∧ (get_working_days 0 3).head? = some 1 := by
  constructor
  · have h := (working_days_spec 4).2.2.2.2 (by norm_num)
    simpa using h
  · have h := (working_days_spec 0).2.2.2.1 2 (by norm_num)
    simpa using h

/-- Claim C7: parse_time tries exactly the four formats in their fixed
order returning the first success and none when no format matches;
"2:30 PM" and "2:30PM" parse to the same time-of-day as "14:30"; the
"%H:%M:%S" fallback is reachable; every canonical two-digit 24-hour
"HH:MM" string round-trips to exactly the time it denotes. -/
theorem parse_time_spec :
    (∀ s, parse_time s = firstSome
      [strptime_HM (normInput s), strptime_IM_sp_p (normInput s),
       strptime_IMp (normInput s), strptime_HMS (normInput s)])
  ∧ parse_time "2:30 PM" = some 52200
  ∧ parse_time "2:30PM" = some 52200
  ∧ parse_time "14:30" = some 52200
  ∧ parse_time "08:00:30" = some 28830
  ∧ parse_time "1230" = none
  ∧ (∀ h, h < 24 → ∀ m, m < 60 →
      parse_time (canonHM h m) = some (h * 3600 + m * 60)) := by
  refine ⟨fun s => rfl, by decide, by decide, by decide, by decide, by decide, ?_⟩
  set_option maxRecDepth 4000 in decide

/-- Witness for parse_time_spec at hour 14, minute 30. -/
theorem parse_time_witness : parse_time (canonHM 14 30) = some (14 * 3600 + 30 * 60) :=
  parse_time_spec.2.2.2.2.2.2 14 (by norm_num) 30 (by norm_num)

/-- Claim C8: with both window bounds parsing and start at most end, the
time-window filter keeps a train whose departure time parses to d exactly
when s is at most d and d is at most e, inclusive on both ends; trains
outside the window are dropped. -/
theorem time_window_filter_spec :
    ∀ (trains : List Train) (sStr eStr : String) (s e d : Nat) (t : Train),
      parse_time sStr = some s → parse_time eStr = some e → s ≤ e →
      parse_time t.departure_time = some d →
      (t ∈ filter_by_time_window trains sStr eStr ↔ t ∈ trains ∧ s ≤ d ∧ d ≤ e) := by
  intro trains sStr eStr s e d t hs he _ hd
  simp [filter_by_time_window, List.mem_filter, hs, he, hd]

/-- Witness for time_window_filter_spec: a departure at 08:15 is kept by
the [08:00, 08:30] window, and the boundary cases 08:00 and 08:30 are
kept while 08:31 is not. -/
theorem time_window_filter_witness :
    tW ∈ filter_by_time_window [tW] "08:00" "08:30"
  ∧ ({ tW with departure_time := "08:00" } ∈
      filter_by_time_window [{ tW with departure_time := "08:00" }] "08:00" "08:30")
  ∧ ({ tW with departure_time := "08:30" } ∈
      filter_by_time_window [{ tW with departure_time := "08:30" }] "08:00" "08:30")
  ∧ ¬ ({ tW with departure_time := "08:31" } ∈
      filter_by_time_window [{ tW with departure_time := "08:31" }] "08:00" "08:30") := by
  refine ⟨?_, ?_, ?_, ?_⟩
  · exact (time_window_filter_spec [tW] "08:00" "08:30" 28800 30600 29700 tW
      (by decide) (by decide) (by decide) (by decide)).mpr
      ⟨List.mem_singleton.mpr rfl, by decide, by decide⟩
  · exact (time_window_filter_spec _ "08:00" "08:30" 28800 30600 28800 _
      (by decide) (by decide) (by decide) (by decide)).mpr
      ⟨List.mem_singleton.mpr rfl, by decide, by decide⟩
  · exact (time_window_filter_spec _ "08:00" "08:30" 28800 30600 30600 _
      (by decide) (by decide) (by decide) (by decide)).mpr
      ⟨List.mem_singleton.mpr rfl, by decide, by decide⟩
  · intro hmem
    have h := (time_window_filter_spec _ "08:00" "08:30" 28800 30600 30660 _
      (by decide) (by decide) (by decide) (by decide)).mp hmem
    omega

theorem check_if_notified_congr (now : Int) (db db2 : DB) (train : Train)
    (route_type : String) (h : db.notifications = db2.notifications) :
    check_if_notified now db train route_type
      = check_if_notified now db2 train route_type := by
  simp [check_if_notified, h]

theorem append_singleton_ne {α : Type} (l : List α) (a : α) : l ≠ l ++ [a] := by
  intro h
  have := congrArg List.length h
  simp at this

/-- Claim C1 part 1 support: behaviour of the loop body when the
observation INSERT succeeds. -/
theorem processTrain_alert_iff (env : RunEnv) (origin destination route_type : String)
    (st : CheckState) (train : Train)
    (hstore : env.storageOk (mkHistoryEntry train origin destination route_type) = true) :
    ((processTrain env origin destination route_type st train).1.alerts
        = st.alerts ++ [(train.train_number, train.price)]
      ↔ train.price < PRICE_THRESHOLD
          ∧ check_if_notified env.now st.db train route_type = false) := by
  have hnotif : check_if_notified env.now
      { st.db with price_history :=
          st.db.price_history ++ [mkHistoryEntry train origin destination route_type] }
      train route_type = check_if_notified env.now st.db train route_type := by
    apply check_if_notified_congr
    rfl
  by_cases hp : train.price < PRICE_THRESHOLD
  · by_cases hn : check_if_notified env.now st.db train route_type = true
    · simp [processTrain, save_price_data, hstore, hp, hnotif, hn,
        (append_singleton_ne st.alerts (train.train_number, train.price))]
    · have hn' : check_if_notified env.now st.db train route_type = false :=
        Bool.not_eq_true _ ▸ eq_false_of_ne_true hn
      simp [processTrain, save_price_data, hstore, hp, hnotif, hn', send_sms_alert]
  · simp [processTrain, save_price_data, hstore, hp,
      (append_singleton_ne st.alerts (train.train_number, train.price))]

/-- After a successfully delivered and recorded alert, a second
observation of the same train within 24 hours raises no new alert, even
at a lower price. -/
theorem processTrain_suppression (env env2 : RunEnv)
    (origin destination route_type : String) (st : CheckState) (train : Train) (p2 : ℚ)
    (hstore : env.storageOk (mkHistoryEntry train origin destination route_type) = true)
    (hstore2 : env2.storageOk
      (mkHistoryEntry { train with price := p2 } origin destination route_type) = true)
    (hconf : env.twilioConfigured = true)
    (hdel : env.delivered (mkNotificationEntry env.now train route_type) = true)
    (hp : train.price < PRICE_THRESHOLD)
    (hn : check_if_notified env.now st.db train route_type = false)
    (hle : env.now ≤ env2.now) (hwin : env2.now < env.now + 86400) :
    (processTrain env2 origin destination route_type
        (processTrain env origin destination route_type st train).1
        { train with price := p2 }).1.alerts
      = (processTrain env origin destination route_type st train).1.alerts := by
  have hnotif : check_if_notified env.now
      { st.db with price_history :=
          st.db.price_history ++ [mkHistoryEntry train origin destination route_type] }
      train route_type = check_if_notified env.now st.db train route_type := by
    apply check_if_notified_congr
    rfl
  have h1 : (processTrain env origin destination route_type st train).1
      = CheckState.mk
          (DB.mk
            (st.db.price_history ++ [mkHistoryEntry train origin destination route_type])
            (st.db.notifications ++ [mkNotificationEntry env.now train route_type]))
          (st.alerts ++ [(train.train_number, train.price)]) := by
    simp [processTrain, save_price_data, hstore, hp, hnotif, hn, send_sms_alert,
      hconf, hdel]
  rw [h1]
  have hcheck : ∀ db2 : DB,
      db2.notifications = st.db.notifications
        ++ [mkNotificationEntry env.now train route_type] →
      check_if_notified env2.now db2 { train with price := p2 } route_type = true := by
    intro db2 hdb
    simp only [check_if_notified, hdb, List.any_append, List.any_cons, List.any_nil,
      Bool.or_eq_true]
    right
    left
    simp [mkNotificationEntry]
    omega
  by_cases hp2 : p2 < PRICE_THRESHOLD
  · simp [processTrain, save_price_data, hstore2, hp2, hcheck]
  · simp [processTrain, save_price_data, hstore2, hp2]

/-- Claim C1: when the observation INSERT succeeds, the alert fires iff
the price is strictly below PRICE_THRESHOLD and no notification for the
exact (travel_date, route_type, train_number) triple was sent within the
last 24 hours; the dedup query ignores the price; a price exactly equal
to the threshold never alerts; and after a recorded alert, a second,
cheaper fare for the same train within the window is still suppressed. -/
theorem alert_policy_spec :
    (∀ (env : RunEnv) (origin destination route_type : String) (st : CheckState)
        (train : Train),
      env.storageOk (mkHistoryEntry train origin destination route_type) = true →
      ((processTrain env origin destination route_type st train).1.alerts
          = st.alerts ++ [(train.train_number, train.price)]
        ↔ train.price < PRICE_THRESHOLD
            ∧ check_if_notified env.now st.db train route_type = false)
      ∧ (∀ p : ℚ, check_if_notified env.now st.db { train with price := p } route_type
            = check_if_notified env.now st.db train route_type)
      ∧ (train.price = PRICE_THRESHOLD →
          (processTrain env origin destination route_type st train).1.alerts = st.alerts))
  ∧ (∀ (env env2 : RunEnv) (origin destination route_type : String) (st : CheckState)
        (train : Train) (p2 : ℚ),
      env.storageOk (mkHistoryEntry train origin destination route_type) = true →
      env2.storageOk
        (mkHistoryEntry { train with price := p2 } origin destination route_type) = true →
      env.twilioConfigured = true →
      env.delivered (mkNotificationEntry env.now train route_type) = true →
      train.price < PRICE_THRESHOLD →
      check_if_notified env.now st.db train route_type = false →
      env.now ≤ env2.now → env2.now < env.now + 86400 →
      (processTrain env2 origin destination route_type
          (processTrain env origin destination route_type st train).1
          { train with price := p2 }).1.alerts
        = (processTrain env origin destination route_type st train).1.alerts) := by
  constructor
  · intro env origin destination route_type st train hstore
    refine ⟨processTrain_alert_iff env origin destination route_type st train hstore,
      ?_, ?_⟩
    · intro p
      simp [check_if_notified]
    · intro hpe
      have hnotif : check_if_notified env.now
          { st.db with price_history :=
              st.db.price_history ++ [mkHistoryEntry train origin destination route_type] }
          train route_type = check_if_notified env.now st.db train route_type := by
        apply check_if_notified_congr
        rfl
      simp [processTrain, save_price_data, hstore, hpe, lt_irrefl]
  · intro env env2 origin destination route_type st train p2 h1 h2 h3 h4 h5 h6 h7 h8
    exact processTrain_suppression env env2 origin destination route_type st train p2
      h1 h2 h3 h4 h5 h6 h7 h8

/-- Witness for alert_policy_spec: a 19 dollar fare below the 20 dollar
threshold alerts once; a 20 dollar fare does not; after the recorded
alert an 18 dollar fare for the same train one hour later is
suppressed. -/
theorem alert_policy_witness :
    (processTrain envW "PJC" "PHL" "MORNING_OUTBOUND" st0 trainW).1.alerts
      = [("123", (19 : ℚ))]
  ∧ (processTrain envW "PJC" "PHL" "MORNING_OUTBOUND" st0 trainEq).1.alerts = []
  ∧ (processTrain envW2 "PJC" "PHL" "MORNING_OUTBOUND"
        (processTrain envW "PJC" "PHL" "MORNING_OUTBOUND" st0 trainW).1 trainW18).1.alerts
      = (processTrain envW "PJC" "PHL" "MORNING_OUTBOUND" st0 trainW).1.alerts := by
  refine ⟨?_, ?_, ?_⟩
  · have h := ((alert_policy_spec.1 envW "PJC" "PHL" "MORNING_OUTBOUND" st0 trainW
      rfl).1).mpr ⟨by decide, by decide⟩
    simpa using h
  · have h := (alert_policy_spec.1 envW "PJC" "PHL" "MORNING_OUTBOUND" st0 trainEq
      rfl).2.2 (by decide)
    simpa using h
  · exact alert_policy_spec.2 envW envW2 "PJC" "PHL" "MORNING_OUTBOUND" st0 trainW 18
      rfl rfl rfl rfl (by decide) (by decide) (by decide) (by decide)

/-- Claim C2: a notification row is written exactly by a successful
delivery.  An unconfigured transport or a failed delivery returns False
with the database unchanged; whenever the notifications table changed,
the call returned True, the transport was configured, delivery succeeded,
and exactly the one entry was appended; a False result always leaves the
database unchanged, so a later cycle can retry. -/
theorem notification_record_spec :
    ∀ (env : RunEnv) (origin destination route_type : String) (db : DB) (train : Train),
      (env.twilioConfigured = false →
        send_sms_alert env train origin destination route_type db = (false, db))
      ∧ (env.delivered (mkNotificationEntry env.now train route_type) = false →
        send_sms_alert env train origin destination route_type db = (false, db))
      ∧ ((send_sms_alert env train origin destination route_type db).2.notifications
            ≠ db.notifications →
          (send_sms_alert env train origin destination route_type db).1 = true
          ∧ env.twilioConfigured = true
          ∧ env.delivered (mkNotificationEntry env.now train route_type) = true
          ∧ (send_sms_alert env train origin destination route_type db).2.notifications
              = db.notifications ++ [mkNotificationEntry env.now train route_type])
      ∧ ((send_sms_alert env train origin destination route_type db).1 = false →
          (send_sms_alert env train origin destination route_type db).2 = db) := by
  intro env origin destination route_type db train
  cases hc : env.twilioConfigured
  · simp [send_sms_alert, hc]
  · cases hd : env.delivered (mkNotificationEntry env.now train route_type)
    · simp [send_sms_alert, hc, hd]
    · simp [send_sms_alert, hc, hd]

/-- Witness for notification_record_spec: an unconfigured transport and a
failing transport each return False without touching the database. -/
theorem notification_record_witness :
    send_sms_alert envNoTwilio trainW "Princeton Junction" "Trenton" "R" st0.db
      = (false, st0.db)
  ∧ send_sms_alert envDelFail trainW "Princeton Junction" "Trenton" "R" st0.db
      = (false, st0.db) :=
  ⟨(notification_record_spec envNoTwilio "Princeton Junction" "Trenton" "R" st0.db
      trainW).1 rfl,
   (notification_record_spec envDelFail "Princeton Junction" "Trenton" "R" st0.db
      trainW).2.1 rfl⟩

/-- Claim C3: a fare-source failure (navigation error or timeout), a
results page with no trains, or an empty candidate list makes check_route
return the empty filtered set with the state unchanged (zero
price_history rows written) and no exception escaping (the Bool is
true). -/
theorem source_failure_spec :
    ∀ (env : RunEnv) (origin destination : String) (date : Nat)
      (time_start time_end route_type : String) (st : CheckState),
      (env.source origin destination date = SourceOutcome.fail
        ∨ env.source origin destination date = SourceOutcome.noResults
        ∨ env.source origin destination date = SourceOutcome.raw []) →
      check_route env origin destination date time_start time_end route_type st
        = ([], st, true) := by
  intro env origin destination date time_start time_end route_type st h
  rcases h with h | h | h
  all_goals
    simp [check_route, search_trains, h, extract_train_data, filter_by_time_window,
      runTrains]

/-- Witness for source_failure_spec on a concrete failing source. -/
theorem source_failure_witness :
    check_route envFail "PJC" "PHL" 1 MORNING_START MORNING_END "MORNING_OUTBOUND" st0
      = ([], st0, true) :=
  source_failure_spec envFail "PJC" "PHL" 1 MORNING_START MORNING_END "MORNING_OUTBOUND"
    st0 (Or.inl rfl)

/-- Claim C10: with the Twilio transport unconfigured, every alert
attempt returns False without writing a notification row, and therefore
the same below-threshold fare produces a fresh alert attempt (one ALERT
log line) on every one of n successive observations: dedup never takes
effect. -/
theorem unconfigured_notifier_spec :
    ∀ env : RunEnv, env.twilioConfigured = false →
      (∀ (origin destination route_type : String) (db : DB) (train : Train),
        send_sms_alert env train origin destination route_type db = (false, db))
      ∧ (∀ (origin destination route_type : String) (st : CheckState) (train : Train)
          (n : Nat),
          train.price < PRICE_THRESHOLD →
          check_if_notified env.now st.db train route_type = false →
          env.storageOk (mkHistoryEntry train origin destination route_type) = true →
          (observeRepeatedly env origin destination route_type train n st).alerts.length
              = st.alerts.length + n
          ∧ (observeRepeatedly env origin destination route_type train n st).db.notifications
              = st.db.notifications) := by
  intro env hconf
  constructor
  · intro origin destination route_type db train
    simp [send_sms_alert, hconf]
  · intro origin destination route_type st train n
    induction n generalizing st with
    | zero =>
      intro _ _ _
      simp [observeRepeatedly]
    | succ n ih =>
      intro hp hn hstore
      have hstep : (processTrain env origin destination route_type st train).1
          = CheckState.mk
              (DB.mk
                (st.db.price_history
                  ++ [mkHistoryEntry train origin destination route_type])
                st.db.notifications)
              (st.alerts ++ [(train.train_number, train.price)]) := by
        have hnotif : check_if_notified env.now
            { st.db with price_history :=
                st.db.price_history
                  ++ [mkHistoryEntry train origin destination route_type] }
            train route_type = check_if_notified env.now st.db train route_type := by
          apply check_if_notified_congr
          rfl
        simp [processTrain, save_price_data, hstore, hp, hnotif, hn, send_sms_alert,
          hconf]
      have ihst := ih (CheckState.mk
          (DB.mk
            (st.db.price_history ++ [mkHistoryEntry train origin destination route_type])
            st.db.notifications)
          (st.alerts ++ [(train.train_number, train.price)])) hp hn hstore
      rw [observeRepeatedly, hstep]
      refine ⟨?_, ?_⟩
      · rw [ihst.1]
        simp
        omega
      · rw [ihst.2]

/-- Witness for unconfigured_notifier_spec: three successive observations
of the 19 dollar fare produce three alert attempts and an empty
notifications table. -/
theorem unconfigured_notifier_witness :
    (observeRepeatedly envNoTwilio "PJC" "PHL" "MORNING_OUTBOUND" trainW 3 st0).alerts.length
      = 3
  ∧ (observeRepeatedly envNoTwilio "PJC" "PHL" "MORNING_OUTBOUND" trainW 3 st0).db.notifications
      = [] := by
  have h := (unconfigured_notifier_spec envNoTwilio rfl).2 "PJC" "PHL" "MORNING_OUTBOUND"
    st0 trainW 3 (by decide) (by decide) rfl
  refine ⟨by rw [h.1]; rfl, by rw [h.2]; rfl⟩

theorem run_monitoring_cycle_def (env : RunEnv) (today : Nat) (st : CheckState) :
    run_monitoring_cycle env today st = runDays env (get_working_days today 5) st :=
  rfl

/-- Counterexample to claim C4 as stated.  In envC4 the day-1 morning
check observes trainA, whose price_history INSERT fails; the day-1
afternoon PHL-to-PJC check would observe trainB and successfully write
its row (second and third conjuncts).  Nevertheless the cycle aborts at
the morning check with the state unchanged and the error escaping
run_monitoring_cycle (first conjunct): the remaining route checks of the
cycle do not run, so the failure is not contained to the current route
check. -/
theorem storage_failure_counterexample :
    run_monitoring_cycle envC4 0 st0 = (st0, false)
  ∧ (check_route envC4 "PHL" "PJC" 1 AFTERNOON_START AFTERNOON_END
        "AFTERNOON_RETURN_PJC" st0).2.1.db.price_history
      = [mkHistoryEntry trainB "PHL" "PJC" "AFTERNOON_RETURN_PJC"]
  ∧ (check_route envC4 "PHL" "PJC" 1 AFTERNOON_START AFTERNOON_END
        "AFTERNOON_RETURN_PJC" st0).2.2 = true := by
  refine ⟨?_, by decide, by decide⟩
  rw [run_monitoring_cycle_def, gwd_0_5]
  decide

/-- Claim C4 as amended: a storage failure in a route check aborts the
remaining checks of the current cycle (the error escapes check_route and
run_monitoring_cycle, which have no handler), but in continuous mode the
process does not terminate: the cycle error is caught by the loop, which
then still runs every remaining cycle and never stops without an
operator interrupt. -/
theorem storage_failure_scope :
    (∀ (env : RunEnv) (day : Nat) (rest : List Nat) (st : CheckState),
      (check_route env "PJC" "PHL" day MORNING_START MORNING_END
          "MORNING_OUTBOUND" st).2.2 = false →
      runDays env (day :: rest) st
        = ((check_route env "PJC" "PHL" day MORNING_START MORNING_END
            "MORNING_OUTBOUND" st).2.1, false))
  ∧ (∀ (env : RunEnv) (today : Nat) (st : CheckState) (rest : List CycleStep),
      (run_monitoring_cycle env today st).2 = false →
      countCycles (run_continuously (CycleStep.run env today :: rest) st).1
          = 1 + countCycles (run_continuously rest (run_monitoring_cycle env today st).1).1
        ∧ stoppedIn (run_continuously (CycleStep.run env today :: rest) st).1
          = stoppedIn (run_continuously rest (run_monitoring_cycle env today st).1).1) := by
  constructor
  · intro env day rest st h
    simp [runDays, h]
  · intro env today st rest h
    simp [run_continuously, h, countCycles, stoppedIn]
    omega

/-- Witness for storage_failure_scope at the concrete envC4: the one-day
cycle aborts with no rows written, and the one-cycle continuous loop
still completes its cycle count without stopping. -/
theorem storage_failure_scope_witness :
    runDays envC4 [1] st0 = (st0, false)
  ∧ countCycles (run_continuously [CycleStep.run envC4 0] st0).1 = 1 := by
  have hchk : (check_route envC4 "PJC" "PHL" 1 MORNING_START MORNING_END
      "MORNING_OUTBOUND" st0).2.2 = false := by decide
  have hcyc : (run_monitoring_cycle envC4 0 st0).2 = false := by
    rw [run_monitoring_cycle_def, gwd_0_5]
    decide
  constructor
  · have h := storage_failure_scope.1 envC4 1 [] st0 hchk
    rw [h]
    decide
  · have h := (storage_failure_scope.2 envC4 0 st0 [] hcyc).1
    rw [h]
    rfl

/-- Claim C9: without an operator interrupt the loop attempts exactly one
cycle per iteration and never stops, however many cycles fail; a failed
cycle is followed by the error log, the driver release, and the 300
second backoff before the loop continues with the remaining iterations;
the backoff lies strictly between the 3 second pacing delay and the 7200
second cycle interval; an operator interrupt stops the loop at once. -/
theorem continuous_loop_spec :
    (∀ (steps : List CycleStep) (st : CheckState),
      hasInterrupt steps = false →
      countCycles (run_continuously steps st).1 = steps.length
      ∧ stoppedIn (run_continuously steps st).1 = false)
  ∧ (∀ (env : RunEnv) (today : Nat) (rest : List CycleStep) (st : CheckState),
      (run_monitoring_cycle env today st).2 = false →
      run_continuously (CycleStep.run env today :: rest) st
        = (Event.cycle :: Event.errorLogged :: Event.closeDriver ::
            Event.sleep BACKOFF_SECONDS ::
            (run_continuously rest (run_monitoring_cycle env today st).1).1,
          (run_continuously rest (run_monitoring_cycle env today st).1).2))
  ∧ PACING_DELAY_SECONDS < BACKOFF_SECONDS
  ∧ BACKOFF_SECONDS < CHECK_INTERVAL_MINUTES * 60
  ∧ (∀ (rest : List CycleStep) (st : CheckState),
      run_continuously (CycleStep.interrupt :: rest) st = ([Event.stopped], st)) := by
  refine ⟨?_, ?_, by decide, by decide, fun rest st => rfl⟩
  · intro steps
    induction steps with
    | nil =>
      intro st _
      simp [run_continuously, countCycles, stoppedIn]
    | cons s rest ih =>
      intro st hni
      cases s with
      | interrupt => simp [hasInterrupt] at hni
      | run env today =>
        have hni' : hasInterrupt rest = false := hni
        cases hr : (run_monitoring_cycle env today st).2
        · have := ih ((run_monitoring_cycle env today st).1) hni'
          simp [run_continuously, hr, countCycles, stoppedIn, this.1, this.2]
        · have := ih ((run_monitoring_cycle env today st).1) hni'
          simp [run_continuously, hr, countCycles, stoppedIn, this.1, this.2]
  · intro env today rest st h
    simp [run_continuously, h]

/-- Witness for continuous_loop_spec: two healthy cycles yield two cycle
attempts; a failing cycle logs, releases the driver and backs off 300
seconds before the loop goes on; an interrupt stops the loop. -/
theorem continuous_loop_witness :
    countCycles (run_continuously
      [CycleStep.run envAllOk 0, CycleStep.run envAllOk 0] st0).1 = 2
  ∧ run_continuously [CycleStep.run envC4 0] st0
      = ([Event.cycle, Event.errorLogged, Event.closeDriver,
          Event.sleep BACKOFF_SECONDS], st0)
  ∧ run_continuously [CycleStep.interrupt] st0 = ([Event.stopped], st0) := by
  refine ⟨(continuous_loop_spec.1
      [CycleStep.run envAllOk 0, CycleStep.run envAllOk 0] st0 rfl).1, ?_,
    continuous_loop_spec.2.2.2.2 [] st0⟩
  have hcyc : (run_monitoring_cycle envC4 0 st0).2 = false := by
    rw [run_monitoring_cycle_def, gwd_0_5]
    decide
  have hst : (run_monitoring_cycle envC4 0 st0).1 = st0 := by
    rw [run_monitoring_cycle_def, gwd_0_5]
    decide
  have h := continuous_loop_spec.2.1 envC4 0 [] st0 hcyc
  rw [h, hst]
  rfl

/-- Claim C5 model: the per-record loop of extract_train_data skips the
one malformed candidate of a five-candidate batch and keeps its four
siblings, and the full route check persists exactly four price_history
rows with no error escaping.  The source function itself cannot run: see
the note on extract_train_data about the invalid debug print at line
223. -/
theorem partial_batch_model :
    extract_train_data c5Batch = [t1, t2, t3, t4]
  ∧ (check_route envC5 "PJC" "PHL" 1 MORNING_START MORNING_END
        "MORNING_OUTBOUND" st0).2.1.db.price_history.length = 4
  ∧ (check_route envC5 "PJC" "PHL" 1 MORNING_START MORNING_END
        "MORNING_OUTBOUND" st0).2.2 = true
  ∧ (check_route envC5 "PJC" "PHL" 1 MORNING_START MORNING_END
        "MORNING_OUTBOUND" st0).1 = [t1, t2, t3, t4] := by
  refine ⟨rfl, by decide, by decide, by decide⟩
